import Mathlib

/-!
Shallow embedding of the FLVER vertex-buffer decoding core
(src/format/src/flver/vertex_buffer.rs) and proofs about it.

Conventions of the embedding:
- Byte buffers are modelled as lists of natural numbers; no operation of this
  core depends on the 0..255 bound, only on lengths and on the bytes as opaque
  values, so the bound is not imposed.
- A value of the Pod element type T is represented by its byte image (a list of
  length equal to the size of T); the zero-copy reinterpretation performed by
  the Rust code is the identity on that byte image, so yielded items are the
  byte windows themselves.  The size of T is passed explicitly as a parameter
  named tsize, mirroring the type parameter of the Rust impl.
- A Rust panic (slice-bounds failure, byte-length mismatch inside the
  zero-copy cast, or integer division by zero) is modelled as an explicit
  failure value, never as a defaulted result.
-/

/-- State of the strided attribute iterator: the remaining borrowed buffer,
the byte window of the attribute inside the current vertex record, and the
per-vertex stride.  The phantom type parameter of the Rust struct is carried
separately as an explicit element byte size. -/
structure VertexAttributeIter where
  buffer : List Nat
  attribute_data_offset : Nat
  attribute_data_end : Nat
  vertex_size : Nat
deriving Repr, DecidableEq

/-- Constructor of the iterator: stores the buffer and stride unchanged and
derives the element window end as offset plus the element byte size.  It
performs no validation. -/
def VertexAttributeIter.new (tsize : Nat) (buffer : List Nat)
    (vertex_size vertex_offset : Nat) : VertexAttributeIter :=
  { buffer := buffer
    attribute_data_offset := vertex_offset
    attribute_data_end := vertex_offset + tsize
    vertex_size := vertex_size }

/-- Result of one step of the iterator: exhausted (Rust returns None), a panic
(slice out of bounds or element byte-length mismatch), or a yielded value
together with the successor state. -/
inductive NextResult where
  | exhausted : NextResult
  | panic : NextResult
  | item (value : List Nat) (rest : VertexAttributeIter) : NextResult
deriving Repr, DecidableEq

/-- One step of the iterator, mirroring the Rust next method: return None on
an empty remaining buffer; otherwise slice the element window (panicking when
it exceeds the remaining buffer), reinterpret it as the element type
(panicking when the window length differs from the element size), advance the
remaining buffer by the stride (panicking when the stride exceeds the
remaining length), and yield the value. -/
def VertexAttributeIter.next (tsize : Nat) (it : VertexAttributeIter) :
    NextResult :=
  if it.buffer.isEmpty then .exhausted
  else if it.attribute_data_end < it.attribute_data_offset ∨
      it.buffer.length < it.attribute_data_end then .panic
  else
    let attribute_byte_data :=
      (it.buffer.drop it.attribute_data_offset).take
        (it.attribute_data_end - it.attribute_data_offset)
    if attribute_byte_data.length ≠ tsize then .panic
    else if it.buffer.length < it.vertex_size then .panic
    else .item attribute_byte_data
      { it with buffer := it.buffer.drop it.vertex_size }

/-- Remaining-count estimate, mirroring the Rust size_hint: the floor division
of the remaining byte length by the stride, as both the lower and upper bound.
Division by a zero stride panics in Rust and is modelled as none. -/
def VertexAttributeIter.size_hint (it : VertexAttributeIter) :
    Option (Nat × Option Nat) :=
  if it.vertex_size = 0 then none
  else some (it.buffer.length / it.vertex_size,
    some (it.buffer.length / it.vertex_size))

/-- Outcome of driving the iterator to completion: the list of yielded items
together with how iteration ended (reached exhaustion, panicked, or ran out
of fuel in the model). -/
inductive RunResult where
  | ok (items : List (List Nat)) : RunResult
  | panic (items : List (List Nat)) : RunResult
  | fuelOut (items : List (List Nat)) : RunResult
deriving Repr, DecidableEq

/-- Items yielded before the run ended, whichever way it ended. -/
def RunResult.items : RunResult → List (List Nat)
  | .ok items => items
  | .panic items => items
  | .fuelOut items => items

/-- Prepend one yielded item to a run outcome. -/
def RunResult.cons (value : List Nat) : RunResult → RunResult
  | .ok items => .ok (value :: items)
  | .panic items => .panic (value :: items)
  | .fuelOut items => .fuelOut (value :: items)

/-- Drive the iterator with the given amount of fuel, collecting every yielded
item in order.  Fuel only serves to make the model total: a zero stride makes
the Rust iterator loop forever, which surfaces as fuelOut. -/
def VertexAttributeIter.run (tsize : Nat) :
    Nat → VertexAttributeIter → RunResult
  | 0, _ => .fuelOut []
  | fuel + 1, it =>
    match it.next tsize with
    | .exhausted => .ok []
    | .panic => .panic []
    | .item value rest => (VertexAttributeIter.run tsize fuel rest).cons value

/-- Expected item sequence of an iterator state: one byte window per full
stride still contained in the remaining buffer. -/
def VertexAttributeIter.windows (tsize : Nat) (it : VertexAttributeIter) :
    List (List Nat) :=
  (List.range (it.buffer.length / it.vertex_size)).map fun i =>
    (it.buffer.drop (i * it.vertex_size + it.attribute_data_offset)).take tsize

theorem RunResult.items_cons (value : List Nat) (r : RunResult) :
    (r.cons value).items = value :: r.items := by
  cases r <;> rfl

/-- Central description of a complete run: for a state whose element window
lies inside the stride and whose stride is positive, the run yields exactly
one window per full stride in the buffer, ending exhausted when the stride
divides the remaining length and in a bounds panic otherwise. -/
theorem VertexAttributeIter.run_spec (tsize : Nat) (fuel : Nat) :
    ∀ it : VertexAttributeIter,
    0 < it.vertex_size →
    it.attribute_data_end = it.attribute_data_offset + tsize →
    it.attribute_data_end ≤ it.vertex_size →
    it.buffer.length < fuel →
    VertexAttributeIter.run tsize fuel it =
      if it.vertex_size ∣ it.buffer.length then .ok (it.windows tsize)
      else .panic (it.windows tsize) := by
  induction fuel with
  | zero => intro it _ _ _ hlen; omega
  | succ f ih =>
    intro it hvs hts hev hlen
    by_cases hbuf : it.buffer = []
    · have hempty : it.buffer.isEmpty = true := by simp [hbuf]
      have hdvd : it.vertex_size ∣ it.buffer.length := by simp [hbuf]
      simp only [VertexAttributeIter.run, VertexAttributeIter.next, hempty,
        if_true, if_pos hdvd]
      simp [VertexAttributeIter.windows, hbuf]
    · have hempty : it.buffer.isEmpty = false := by
        simp [List.isEmpty_iff, hbuf]
      have hlen0 : 0 < it.buffer.length := List.length_pos.mpr hbuf
      by_cases hstep : it.vertex_size ≤ it.buffer.length
      · -- A full stride remains: the step yields the current window.
        have hnotc : ¬ (it.attribute_data_end < it.attribute_data_offset ∨
            it.buffer.length < it.attribute_data_end) := by
          push_neg
          constructor
          · omega
          · omega
        have hwlen : ((it.buffer.drop it.attribute_data_offset).take
            (it.attribute_data_end - it.attribute_data_offset)).length
            = tsize := by
          rw [List.length_take, List.length_drop]
          omega
        have hnext : it.next tsize = .item
            ((it.buffer.drop it.attribute_data_offset).take
              (it.attribute_data_end - it.attribute_data_offset))
            { it with buffer := it.buffer.drop it.vertex_size } := by
          simp only [VertexAttributeIter.next, hempty, Bool.false_eq_true,
            if_false, if_neg hnotc, hwlen]
          simp only [ne_eq, not_true_eq_false, if_false, if_neg (by omega :
            ¬ it.buffer.length < it.vertex_size)]
        have hrest := ih { it with buffer := it.buffer.drop it.vertex_size }
          hvs hts hev (by simp [List.length_drop]; omega)
        simp only [VertexAttributeIter.run, hnext, hrest]
        have hdvd_iff : it.vertex_size ∣ (it.buffer.drop it.vertex_size).length
            ↔ it.vertex_size ∣ it.buffer.length := by
          rw [List.length_drop]
          constructor
          · intro h
            have := Nat.dvd_add h (dvd_refl it.vertex_size)
            rwa [Nat.sub_add_cancel hstep] at this
          · intro h
            exact Nat.dvd_sub' h (dvd_refl it.vertex_size)
        have hwin : (it.windows tsize) =
            ((it.buffer.drop it.attribute_data_offset).take
              (it.attribute_data_end - it.attribute_data_offset)) ::
            (VertexAttributeIter.windows tsize
              { it with buffer := it.buffer.drop it.vertex_size }) := by
          simp only [VertexAttributeIter.windows, List.length_drop]
          have hq : it.buffer.length / it.vertex_size =
              (it.buffer.length - it.vertex_size) / it.vertex_size + 1 :=
            Nat.div_eq_sub_div hvs hstep
          rw [hq, List.range_succ_eq_map, List.map_cons, List.map_map]
          congr 1
          · rw [Nat.zero_mul, Nat.zero_add]
            have : it.attribute_data_end - it.attribute_data_offset
                = tsize := by omega
            rw [this]
          · apply List.map_congr_left
            intro i _
            simp only [Function.comp_apply]
            rw [List.drop_drop]
            congr 1
            rw [Nat.succ_mul]
            ring_nf
        rw [hwin]
        by_cases hdvd : it.vertex_size ∣ it.buffer.length
        · rw [if_pos hdvd, if_pos (hdvd_iff.mpr hdvd)]
          rfl
        · rw [if_neg hdvd, if_neg (fun h => hdvd (hdvd_iff.mp h))]
          rfl
      · -- Less than a full stride remains but the buffer is nonempty: panic.
        push_neg at hstep
        have hnext : it.next tsize = .panic := by
          by_cases hend : it.buffer.length < it.attribute_data_end
          · simp only [VertexAttributeIter.next, hempty, Bool.false_eq_true,
              if_false]
            rw [if_pos (Or.inr hend)]
          · have hwlen : ((it.buffer.drop it.attribute_data_offset).take
                (it.attribute_data_end - it.attribute_data_offset)).length
                = tsize := by
              rw [List.length_take, List.length_drop]
              omega
            simp only [VertexAttributeIter.next, hempty, Bool.false_eq_true,
              if_false, if_neg (by omega : ¬ (it.attribute_data_end <
                it.attribute_data_offset ∨
                it.buffer.length < it.attribute_data_end)), hwlen]
            simp only [ne_eq, not_true_eq_false, if_false,
              if_pos hstep]
        have hq : it.buffer.length / it.vertex_size = 0 :=
          Nat.div_eq_of_lt hstep
        have hdvd : ¬ it.vertex_size ∣ it.buffer.length := by
          intro h
          rcases h with ⟨k, hk⟩
          rcases k with _ | k
          · omega
          · have : it.vertex_size ≤ it.buffer.length := by
              rw [hk]; exact Nat.le_mul_of_pos_right _ (Nat.succ_pos k)
            omega
        simp only [VertexAttributeIter.run, hnext, if_neg hdvd,
          VertexAttributeIter.windows, hq, List.range_zero, List.map_nil]

/-- Indexing into the expected window list: the i-th window starts i strides
into the buffer, offset by the attribute offset. -/
theorem VertexAttributeIter.windows_getD (tsize : Nat)
    (it : VertexAttributeIter) (i : Nat)
    (hi : i < it.buffer.length / it.vertex_size) :
    (it.windows tsize).getD i [] =
      (it.buffer.drop (i * it.vertex_size + it.attribute_data_offset)).take
        tsize := by
  have hlen : (it.windows tsize).length =
      it.buffer.length / it.vertex_size := by
    simp [VertexAttributeIter.windows]
  rw [List.getD_eq_getElem _ _ (by rw [hlen]; exact hi)]
  simp [VertexAttributeIter.windows]

/-- Length of the expected window list. -/
theorem VertexAttributeIter.windows_length (tsize : Nat)
    (it : VertexAttributeIter) :
    (it.windows tsize).length = it.buffer.length / it.vertex_size := by
  simp [VertexAttributeIter.windows]

/-- Bounds panics of one step: on a nonempty remaining buffer that is shorter
than the element window or shorter than the stride, the step panics. -/
theorem VertexAttributeIter.next_panic_of_bounds (tsize : Nat)
    (it : VertexAttributeIter)
    (hts : it.attribute_data_end = it.attribute_data_offset + tsize)
    (hbuf : it.buffer ≠ [])
    (hshort : it.buffer.length < it.attribute_data_offset + tsize ∨
      it.buffer.length < it.vertex_size) :
    it.next tsize = .panic := by
  have hempty : it.buffer.isEmpty = false := by
    simp [List.isEmpty_iff, hbuf]
  by_cases hend : it.buffer.length < it.attribute_data_end
  · simp only [VertexAttributeIter.next, hempty, Bool.false_eq_true, if_false]
    rw [if_pos (Or.inr hend)]
  · have hwlen : ((it.buffer.drop it.attribute_data_offset).take
        (it.attribute_data_end - it.attribute_data_offset)).length = tsize := by
      rw [List.length_take, List.length_drop]
      omega
    have hvs : it.buffer.length < it.vertex_size := by omega
    simp only [VertexAttributeIter.next, hempty, Bool.false_eq_true, if_false,
      if_neg (by omega : ¬ (it.attribute_data_end < it.attribute_data_offset ∨
        it.buffer.length < it.attribute_data_end)), hwlen]
    simp only [ne_eq, not_true_eq_false, if_false, if_pos hvs]

/-- Congruence of complete runs: two states with the same geometry and the
same remaining length that agree on every element window run identically. -/
theorem VertexAttributeIter.run_congr (tsize : Nat) (fuel : Nat) :
    ∀ it1 it2 : VertexAttributeIter,
    it1.attribute_data_offset = it2.attribute_data_offset →
    it1.attribute_data_end = it2.attribute_data_end →
    it1.vertex_size = it2.vertex_size →
    it1.buffer.length = it2.buffer.length →
    (∀ i : Nat,
      (it1.buffer.drop (i * it1.vertex_size + it1.attribute_data_offset)).take
        (it1.attribute_data_end - it1.attribute_data_offset) =
      (it2.buffer.drop (i * it2.vertex_size + it2.attribute_data_offset)).take
        (it2.attribute_data_end - it2.attribute_data_offset)) →
    VertexAttributeIter.run tsize fuel it1 =
      VertexAttributeIter.run tsize fuel it2 := by
  induction fuel with
  | zero => intro it1 it2 _ _ _ _ _; rfl
  | succ f ih =>
    intro it1 it2 hoff hend hvs hlen hw
    have hw0 := hw 0
    simp only [Nat.zero_mul, Nat.zero_add] at hw0
    by_cases hbuf : it1.buffer = []
    · have hbuf2 : it2.buffer = [] := by
        rw [← List.length_eq_zero, ← hlen, hbuf]
        rfl
      simp [VertexAttributeIter.run, VertexAttributeIter.next, hbuf, hbuf2]
    · have hbuf2 : it2.buffer ≠ [] := by
        intro h2
        exact hbuf (by rw [← List.length_eq_zero, hlen, h2]; rfl)
      have he1 : it1.buffer.isEmpty = false := by
        simp [List.isEmpty_iff, hbuf]
      have he2 : it2.buffer.isEmpty = false := by
        simp [List.isEmpty_iff, hbuf2]
      by_cases hc : it1.attribute_data_end < it1.attribute_data_offset ∨
          it1.buffer.length < it1.attribute_data_end
      · have hc2 : it2.attribute_data_end < it2.attribute_data_offset ∨
            it2.buffer.length < it2.attribute_data_end := by
          rw [← hoff, ← hend, ← hlen]
          exact hc
        simp only [VertexAttributeIter.run, VertexAttributeIter.next, he1,
          he2, Bool.false_eq_true, if_false, if_pos hc, if_pos hc2]
      · have hc2 : ¬ (it2.attribute_data_end < it2.attribute_data_offset ∨
            it2.buffer.length < it2.attribute_data_end) := by
          rw [← hoff, ← hend, ← hlen]
          exact hc
        have hwl : ((it1.buffer.drop it1.attribute_data_offset).take
            (it1.attribute_data_end - it1.attribute_data_offset)).length =
            ((it2.buffer.drop it2.attribute_data_offset).take
            (it2.attribute_data_end - it2.attribute_data_offset)).length := by
          rw [hw0]
        by_cases hlw : ((it1.buffer.drop it1.attribute_data_offset).take
            (it1.attribute_data_end - it1.attribute_data_offset)).length ≠
            tsize
        · have hlw2 : ((it2.buffer.drop it2.attribute_data_offset).take
              (it2.attribute_data_end - it2.attribute_data_offset)).length ≠
              tsize := by
            rw [← hwl]
            exact hlw
          simp only [VertexAttributeIter.run, VertexAttributeIter.next, he1,
            he2, Bool.false_eq_true, if_false, if_neg hc, if_neg hc2,
            if_pos hlw, if_pos hlw2]
        · have hlw2 : ¬ ((it2.buffer.drop it2.attribute_data_offset).take
              (it2.attribute_data_end - it2.attribute_data_offset)).length ≠
              tsize := by
            rw [← hwl]
            exact hlw
          by_cases hsv : it1.buffer.length < it1.vertex_size
          · have hsv2 : it2.buffer.length < it2.vertex_size := by
              rw [← hvs, ← hlen]
              exact hsv
            simp only [VertexAttributeIter.run, VertexAttributeIter.next,
              he1, he2, Bool.false_eq_true, if_false, if_neg hc, if_neg hc2,
              if_neg hlw, if_neg hlw2, if_pos hsv, if_pos hsv2]
          · have hsv2 : ¬ it2.buffer.length < it2.vertex_size := by
              rw [← hvs, ← hlen]
              exact hsv
            simp only [VertexAttributeIter.run, VertexAttributeIter.next,
              he1, he2, Bool.false_eq_true, if_false, if_neg hc, if_neg hc2,
              if_neg hlw, if_neg hlw2, if_neg hsv, if_neg hsv2]
            rw [hw0]
            congr 1
            apply ih
            · exact hoff
            · exact hend
            · exact hvs
            · simp only [List.length_drop]
              omega
            · intro i
              simp only [List.drop_drop]
              have h1 : it1.vertex_size +
                  (i * it1.vertex_size + it1.attribute_data_offset) =
                  (i + 1) * it1.vertex_size + it1.attribute_data_offset := by
                ring_nf
              have h2 : it2.vertex_size +
                  (i * it2.vertex_size + it2.attribute_data_offset) =
                  (i + 1) * it2.vertex_size + it2.attribute_data_offset := by
                ring_nf
              rw [h1, h2]
              exact hw (i + 1)

/-- Failure modes of the classifiers and geometry lookups: an unrecognized
raw tag (the Rust panic carrying the offending value) and a recognized
variant with no implemented geometry (the Rust unimplemented panic). -/
inductive DecodeError where
  | unknownTag (value : Nat) : DecodeError
  | unimplemented : DecodeError
deriving Repr, DecidableEq

/-- Known vertex attribute storage formats; the discriminants of the Rust
enum are recorded by the tag function below. -/
inductive VertexAttributeFormat where
  | Float2 : VertexAttributeFormat
  | Float3 : VertexAttributeFormat
  | Float4 : VertexAttributeFormat
  | Byte4A : VertexAttributeFormat
  | Byte4B : VertexAttributeFormat
  | Short2ToFloat2 : VertexAttributeFormat
  | Byte4C : VertexAttributeFormat
  | UV : VertexAttributeFormat
  | UVPair : VertexAttributeFormat
  | ShortBoneIndices : VertexAttributeFormat
  | Short4ToFloat4A : VertexAttributeFormat
  | Short4ToFloat4B : VertexAttributeFormat
  | Byte4E : VertexAttributeFormat
  | EdgeCompressed : VertexAttributeFormat
deriving Repr, DecidableEq

/-- Discriminant value assigned to each variant in the Rust enum
declaration. -/
def VertexAttributeFormat.tag : VertexAttributeFormat → Nat
  | .Float2 => 0x1
  | .Float3 => 0x2
  | .Float4 => 0x3
  | .Byte4A => 0x10
  | .Byte4B => 0x11
  | .Short2ToFloat2 => 0x12
  | .Byte4C => 0x13
  | .UV => 0x15
  | .UVPair => 0x16
  | .ShortBoneIndices => 0x18
  | .Short4ToFloat4A => 0x1A
  | .Short4ToFloat4B => 0x2E
  | .Byte4E => 0x2F
  | .EdgeCompressed => 0xF0

/-- Classification of a raw format tag, mirroring the From impl for
VertexAttributeFormat: an explicit whitelist with a panic carrying the raw
value on any other tag. -/
def VertexAttributeFormat.fromTag (value : Nat) :
    Except DecodeError VertexAttributeFormat :=
  if value = 0x1 then .ok .Float2
  else if value = 0x2 then .ok .Float3
  else if value = 0x3 then .ok .Float4
  else if value = 0x10 then .ok .Byte4A
  else if value = 0x11 then .ok .Byte4B
  else if value = 0x12 then .ok .Short2ToFloat2
  else if value = 0x13 then .ok .Byte4C
  else if value = 0x15 then .ok .UV
  else if value = 0x16 then .ok .UVPair
  else if value = 0x18 then .ok .ShortBoneIndices
  else if value = 0x1A then .ok .Short4ToFloat4A
  else if value = 0x2E then .ok .Short4ToFloat4B
  else if value = 0x2F then .ok .Byte4E
  else if value = 0xF0 then .ok .EdgeCompressed
  else .error (.unknownTag value)

/-- Bytes per scalar component, mirroring datum_size; the catch-all arm of
the Rust match is an unimplemented panic and is reached exactly by
EdgeCompressed, the only variant not listed in the other arms. -/
def VertexAttributeFormat.datum_size :
    VertexAttributeFormat → Except DecodeError Nat
  | .Float2 => .ok 4
  | .Float3 => .ok 4
  | .Float4 => .ok 4
  | .UV => .ok 4
  | .UVPair => .ok 4
  | .Byte4A => .ok 1
  | .Byte4B => .ok 1
  | .Byte4C => .ok 1
  | .Byte4E => .ok 1
  | .Short2ToFloat2 => .ok 2
  | .ShortBoneIndices => .ok 2
  | .Short4ToFloat4A => .ok 2
  | .Short4ToFloat4B => .ok 2
  | .EdgeCompressed => .error .unimplemented

/-- Component count of each format, mirroring dimensions; EdgeCompressed is
an explicit unimplemented panic. -/
def VertexAttributeFormat.dimensions :
    VertexAttributeFormat → Except DecodeError Nat
  | .Float2 => .ok 2
  | .Float3 => .ok 3
  | .Float4 => .ok 4
  | .Byte4A => .ok 4
  | .Byte4B => .ok 4
  | .Short2ToFloat2 => .ok 2
  | .Byte4C => .ok 4
  | .UV => .ok 2
  | .UVPair => .ok 4
  | .ShortBoneIndices => .ok 4
  | .Short4ToFloat4A => .ok 4
  | .Short4ToFloat4B => .ok 4
  | .Byte4E => .ok 4
  | .EdgeCompressed => .error .unimplemented

/-- Byte width of the fixed element shape carried by the VertexAttributeIter
inside the VertexAttributeAccessor variant of the same name, read off the
accessor enum declaration: Float2 and UV and UVPair carry two 4-byte floats
(8), Float3 three (12), Float4 four (16), the Byte4 variants four single
bytes (4), Short2ToFloat2 two 2-byte shorts (4), and the Short4ToFloat4
variants four 2-byte shorts (8).  ShortBoneIndices, Byte4E and EdgeCompressed
have no accessor variant. -/
def accessorElementSize : VertexAttributeFormat → Option Nat
  | .Float2 => some 8
  | .Float3 => some 12
  | .Float4 => some 16
  | .Byte4A => some 4
  | .Byte4B => some 4
  | .Short2ToFloat2 => some 4
  | .Byte4C => some 4
  | .UV => some 8
  | .UVPair => some 8
  | .ShortBoneIndices => none
  | .Short4ToFloat4A => some 8
  | .Short4ToFloat4B => some 8
  | .Byte4E => none
  | .EdgeCompressed => none

/-- Known vertex attribute semantic roles. -/
inductive VertexAttributeSemantic where
  | Position : VertexAttributeSemantic
  | BoneWeights : VertexAttributeSemantic
  | BoneIndices : VertexAttributeSemantic
  | Normal : VertexAttributeSemantic
  | UV : VertexAttributeSemantic
  | Tangent : VertexAttributeSemantic
  | Bitangent : VertexAttributeSemantic
  | VertexColor : VertexAttributeSemantic
deriving Repr, DecidableEq

/-- Classification of a raw semantic tag, mirroring the From impl for
VertexAttributeSemantic: an explicit whitelist with a panic carrying the raw
value on any other tag. -/
def VertexAttributeSemantic.fromTag (value : Nat) :
    Except DecodeError VertexAttributeSemantic :=
  if value = 0x0 then .ok .Position
  else if value = 0x1 then .ok .BoneWeights
  else if value = 0x2 then .ok .BoneIndices
  else if value = 0x3 then .ok .Normal
  else if value = 0x5 then .ok .UV
  else if value = 0x6 then .ok .Tangent
  else if value = 0x7 then .ok .Bitangent
  else if value = 0xA then .ok .VertexColor
  else .error (.unknownTag value)

/-- C1 counterexample: with a zero stride and a zero-sized element type, the
empty buffer satisfies the stated preconditions for vertex_count = 1 (its
length is 0 * 1 and the offset 0 is in range since 0 + 0 is at most 0), yet
the iterator is exhausted immediately and yields no item instead of one. -/
theorem iter_zero_stride_counterexample :
    ([] : List Nat).length = 0 * 1 ∧
    0 + 0 ≤ 0 ∧
    VertexAttributeIter.run 0 (([] : List Nat).length + 1)
      (VertexAttributeIter.new 0 [] 0 0) = RunResult.ok [] ∧
    (RunResult.ok ([] : List (List Nat))).items.length ≠ 1 := by
  decide

/-- C1 (amended with a positive stride): over a buffer of vertex_count
records of vertex_size bytes each, an iterator built with an in-range offset
reaches exhaustion and yields exactly vertex_count items. -/
theorem iter_yields_vertex_count (buffer : List Nat)
    (vertex_size vertex_count vertex_offset tsize : Nat)
    (hvs : 0 < vertex_size)
    (hlen : buffer.length = vertex_size * vertex_count)
    (hoff : vertex_offset + tsize ≤ vertex_size) :
    VertexAttributeIter.run tsize (buffer.length + 1)
        (VertexAttributeIter.new tsize buffer vertex_size vertex_offset) =
      RunResult.ok ((VertexAttributeIter.new tsize buffer vertex_size
        vertex_offset).windows tsize) ∧
    ((VertexAttributeIter.new tsize buffer vertex_size
        vertex_offset).windows tsize).length = vertex_count := by
  have hs := VertexAttributeIter.run_spec tsize (buffer.length + 1)
    (VertexAttributeIter.new tsize buffer vertex_size vertex_offset)
    hvs rfl hoff (Nat.lt_succ_self _)
  have hdvd : (VertexAttributeIter.new tsize buffer vertex_size
      vertex_offset).vertex_size ∣ (VertexAttributeIter.new tsize buffer
      vertex_size vertex_offset).buffer.length := ⟨vertex_count, hlen⟩
  rw [if_pos hdvd] at hs
  refine ⟨hs, ?_⟩
  rw [VertexAttributeIter.windows_length]
  show buffer.length / vertex_size = vertex_count
  rw [hlen]
  exact Nat.mul_div_cancel_left vertex_count hvs

/-- C1 witness: two 12-byte vertices in a 24-byte buffer with a 12-byte
element at offset 0 yield exactly two items and reach exhaustion. -/
theorem iter_yields_vertex_count_witness :
    VertexAttributeIter.run 12 ((List.range 24).length + 1)
        (VertexAttributeIter.new 12 (List.range 24) 12 0) =
      RunResult.ok ((VertexAttributeIter.new 12 (List.range 24) 12 0).windows
        12) ∧
    ((VertexAttributeIter.new 12 (List.range 24) 12 0).windows 12).length
      = 2 :=
  iter_yields_vertex_count (List.range 24) 12 2 0 12 (by decide) (by decide)
    (by decide)

/-- C2: every item yielded by an iterator built with an in-range offset over
a buffer of whole records is the byte window of the original buffer starting
at the item index times the stride plus the offset, of the element size. -/
theorem iter_items_are_original_windows (buffer : List Nat)
    (vertex_size vertex_count vertex_offset tsize : Nat)
    (hlen : buffer.length = vertex_size * vertex_count)
    (hoff : vertex_offset + tsize ≤ vertex_size)
    (i : Nat)
    (hi : i < ((VertexAttributeIter.run tsize (buffer.length + 1)
      (VertexAttributeIter.new tsize buffer vertex_size
        vertex_offset)).items).length) :
    ((VertexAttributeIter.run tsize (buffer.length + 1)
      (VertexAttributeIter.new tsize buffer vertex_size
        vertex_offset)).items).getD i [] =
      (buffer.drop (i * vertex_size + vertex_offset)).take tsize := by
  rcases Nat.eq_zero_or_pos vertex_size with hvs | hvs
  · subst hvs
    rw [Nat.zero_mul] at hlen
    have hb : buffer = [] := List.length_eq_zero.mp hlen
    subst hb
    simp [VertexAttributeIter.run, VertexAttributeIter.next,
      VertexAttributeIter.new, RunResult.items] at hi
  · have hs := VertexAttributeIter.run_spec tsize (buffer.length + 1)
      (VertexAttributeIter.new tsize buffer vertex_size vertex_offset)
      hvs rfl hoff (Nat.lt_succ_self _)
    have hdvd : (VertexAttributeIter.new tsize buffer vertex_size
        vertex_offset).vertex_size ∣ (VertexAttributeIter.new tsize buffer
        vertex_size vertex_offset).buffer.length := ⟨vertex_count, hlen⟩
    rw [if_pos hdvd] at hs
    rw [hs] at hi ⊢
    simp only [RunResult.items] at hi ⊢
    rw [VertexAttributeIter.windows_length] at hi
    rw [VertexAttributeIter.windows_getD tsize _ i hi]
    rfl

/-- C2 witness: the Float3 scenario, three 12-byte vertices with a 12-byte
element at offset 0; the second item is decoded from bytes 12 to 24. -/
theorem iter_items_are_original_windows_witness :
    ((VertexAttributeIter.run 12 ((List.range 36).length + 1)
      (VertexAttributeIter.new 12 (List.range 36) 12 0)).items).getD 1 [] =
      ((List.range 36).drop (1 * 12 + 0)).take 12 :=
  iter_items_are_original_windows (List.range 36) 12 3 0 12 (by decide)
    (by decide) 1 (by decide)

/-- C3 counterexample: a state whose element window crosses the stride
boundary (offset 8, element size 8, stride 12, 24 bytes) reports two
remaining items from size_hint but yields only one before a bounds panic, so
the estimate is not the number of items still produced for every state. -/
theorem size_hint_mismatch_counterexample :
    (VertexAttributeIter.new 8 (List.range 24) 12 8).size_hint =
      some (2, some 2) ∧
    ((VertexAttributeIter.run 8 ((List.range 24).length + 1)
      (VertexAttributeIter.new 8 (List.range 24) 12 8)).items).length = 1 ∧
    (1 : Nat) ≠ 2 := by
  decide

/-- C3 (amended to states with a positive stride whose element window lies
inside the stride): size_hint reports the floor division of the remaining
length by the stride as both bounds, that number is exactly the number of
items still yielded, and an empty buffer reports zero and yields nothing. -/
theorem size_hint_counts_items (it : VertexAttributeIter) (tsize : Nat)
    (hvs : 0 < it.vertex_size)
    (hts : it.attribute_data_end = it.attribute_data_offset + tsize)
    (hev : it.attribute_data_end ≤ it.vertex_size) :
    it.size_hint = some (it.buffer.length / it.vertex_size,
      some (it.buffer.length / it.vertex_size)) ∧
    ((VertexAttributeIter.run tsize (it.buffer.length + 1) it).items).length
      = it.buffer.length / it.vertex_size ∧
    (it.buffer = [] → it.size_hint = some (0, some 0) ∧
      it.next tsize = .exhausted) := by
  have hs := VertexAttributeIter.run_spec tsize (it.buffer.length + 1) it hvs
    hts hev (Nat.lt_succ_self _)
  have hvs0 : it.vertex_size ≠ 0 := by omega
  refine ⟨?_, ?_, ?_⟩
  · simp [VertexAttributeIter.size_hint, hvs0]
  · rw [hs]
    by_cases hdvd : it.vertex_size ∣ it.buffer.length
    · rw [if_pos hdvd]
      exact VertexAttributeIter.windows_length tsize it
    · rw [if_neg hdvd]
      exact VertexAttributeIter.windows_length tsize it
  · intro hb
    constructor
    · simp [VertexAttributeIter.size_hint, hvs0, hb]
    · simp [VertexAttributeIter.next, hb]

/-- C3 witness: a well-formed state over 36 bytes with stride 12 reports
three remaining items and indeed yields three. -/
theorem size_hint_counts_items_witness :
    (VertexAttributeIter.new 12 (List.range 36) 12 0).size_hint =
      some (3, some 3) ∧
    ((VertexAttributeIter.run 12 (36 + 1)
      (VertexAttributeIter.new 12 (List.range 36) 12 0)).items).length = 3 := by
  have h := size_hint_counts_items (VertexAttributeIter.new 12 (List.range 36)
    12 0) 12 (by decide) rfl (by decide)
  exact ⟨h.1, h.2.1⟩

/-- C4: format classification is a left-inverse of the canonical tag of each
variant, and every value outside the whitelist fails with the
unrecognized-tag error carrying the offending raw value. -/
theorem format_fromTag_left_inverse :
    (∀ f : VertexAttributeFormat,
      VertexAttributeFormat.fromTag f.tag = .ok f) ∧
    (∀ value : Nat,
      value ∉ [0x1, 0x2, 0x3, 0x10, 0x11, 0x12, 0x13, 0x15, 0x16, 0x18,
        0x1A, 0x2E, 0x2F, 0xF0] →
      VertexAttributeFormat.fromTag value =
        .error (DecodeError.unknownTag value)) := by
  constructor
  · intro f
    cases f <;> rfl
  · intro value hv
    simp only [List.mem_cons, not_or] at hv
    obtain ⟨h1, h2, h3, h4, h5, h6, h7, h8, h9, h10, h11, h12, h13, h14, -⟩
      := hv
    simp only [VertexAttributeFormat.fromTag, if_neg h1, if_neg h2, if_neg h3,
      if_neg h4, if_neg h5, if_neg h6, if_neg h7, if_neg h8, if_neg h9,
      if_neg h10, if_neg h11, if_neg h12, if_neg h13, if_neg h14]

/-- C4 witness: tag 0x2 classifies to Float3, and the out-of-whitelist value
4 fails with the unrecognized-tag error carrying 4. -/
theorem format_fromTag_left_inverse_witness :
    VertexAttributeFormat.fromTag VertexAttributeFormat.Float3.tag =
      .ok VertexAttributeFormat.Float3 ∧
    VertexAttributeFormat.fromTag 4 =
      .error (DecodeError.unknownTag 4) :=
  ⟨format_fromTag_left_inverse.1 VertexAttributeFormat.Float3,
    format_fromTag_left_inverse.2 4 (by decide)⟩

/-- C5 counterexample: UVPair has datum size 4 and dimension 4, but the
UVPair accessor variant decodes an element of 8 bytes (two 4-byte floats),
so 4 * 4 is not the byte width of one decoded element. -/
theorem uvpair_width_counterexample :
    VertexAttributeFormat.datum_size VertexAttributeFormat.UVPair = .ok 4 ∧
    VertexAttributeFormat.dimensions VertexAttributeFormat.UVPair = .ok 4 ∧
    accessorElementSize VertexAttributeFormat.UVPair = some 8 ∧
    4 * 4 ≠ 8 :=
  ⟨rfl, rfl, rfl, by decide⟩

/-- C5 (amended to exclude UVPair, whose accessor decodes only the first two
of its four components by design): for every format that has an accessor
variant, the product of datum size and dimensions is the byte width of the
element shape that accessor decodes. -/
theorem datum_size_times_dimensions (f : VertexAttributeFormat)
    (sz d n : Nat)
    (hacc : accessorElementSize f = some sz)
    (hne : f ≠ VertexAttributeFormat.UVPair)
    (hd : f.datum_size = .ok d)
    (hn : f.dimensions = .ok n) :
    d * n = sz := by
  cases f
  case UVPair => exact absurd rfl hne
  case ShortBoneIndices => exact absurd hacc (by simp [accessorElementSize])
  case Byte4E => exact absurd hacc (by simp [accessorElementSize])
  case EdgeCompressed => exact absurd hacc (by simp [accessorElementSize])
  all_goals
    injection hacc with hacc
    injection hd with hd
    injection hn with hn
    subst hacc
    subst hd
    subst hn
    rfl

/-- C5 witness: Float3 decodes a 12-byte element, and its datum size 4 times
its dimension 3 is 12. -/
theorem datum_size_times_dimensions_witness :
    accessorElementSize VertexAttributeFormat.Float3 = some 12 ∧
    4 * 3 = 12 :=
  ⟨rfl, datum_size_times_dimensions VertexAttributeFormat.Float3 12 4 3 rfl
    (by decide) rfl rfl⟩

/-- Discriminates the unrecognized-tag failure from the other failure kind. -/
def DecodeError.isUnknownTag : DecodeError → Bool
  | .unknownTag _ => true
  | .unimplemented => false

/-- C6: EdgeCompressed is recognized by classification (tag 0xF0), yet its
datum size and dimensions fail with the unsupported-operation error, which is
a different condition from the unrecognized-tag error. -/
theorem edge_compressed_unsupported_distinct :
    VertexAttributeFormat.datum_size VertexAttributeFormat.EdgeCompressed =
      Except.error DecodeError.unimplemented ∧
    VertexAttributeFormat.dimensions VertexAttributeFormat.EdgeCompressed =
      Except.error DecodeError.unimplemented ∧
    VertexAttributeFormat.fromTag 0xF0 =
      Except.ok VertexAttributeFormat.EdgeCompressed ∧
    DecodeError.isUnknownTag DecodeError.unimplemented = false ∧
    (∀ value : Nat,
      DecodeError.isUnknownTag (DecodeError.unknownTag value) = true) :=
  ⟨rfl, rfl, rfl, rfl, fun _ => rfl⟩

/-- C7: semantic classification maps exactly the eight whitelisted tags to
their roles and fails with the unrecognized-tag error on every other value,
in particular on the reserved tags 4, 8 and 9. -/
theorem semantic_fromTag_classification :
    VertexAttributeSemantic.fromTag 0x0 = .ok .Position ∧
    VertexAttributeSemantic.fromTag 0x1 = .ok .BoneWeights ∧
    VertexAttributeSemantic.fromTag 0x2 = .ok .BoneIndices ∧
    VertexAttributeSemantic.fromTag 0x3 = .ok .Normal ∧
    VertexAttributeSemantic.fromTag 0x5 = .ok .UV ∧
    VertexAttributeSemantic.fromTag 0x6 = .ok .Tangent ∧
    VertexAttributeSemantic.fromTag 0x7 = .ok .Bitangent ∧
    VertexAttributeSemantic.fromTag 0xA = .ok .VertexColor ∧
    (∀ value : Nat, value ∉ [0x0, 0x1, 0x2, 0x3, 0x5, 0x6, 0x7, 0xA] →
      VertexAttributeSemantic.fromTag value =
        .error (DecodeError.unknownTag value)) := by
  refine ⟨rfl, rfl, rfl, rfl, rfl, rfl, rfl, rfl, ?_⟩
  intro value hv
  simp only [List.mem_cons, not_or] at hv
  obtain ⟨h1, h2, h3, h4, h5, h6, h7, h8, -⟩ := hv
  simp only [VertexAttributeSemantic.fromTag, if_neg h1, if_neg h2, if_neg h3,
    if_neg h4, if_neg h5, if_neg h6, if_neg h7, if_neg h8]

/-- C7 witness: the reserved tag 4 fails with the unrecognized-tag error. -/
theorem semantic_fromTag_classification_witness :
    VertexAttributeSemantic.fromTag 4 =
      .error (DecodeError.unknownTag 4) :=
  semantic_fromTag_classification.2.2.2.2.2.2.2.2 4 (by decide)

/-- C8: a step on a nonempty remaining buffer that is too short for the
element window or too short for the stride is a bounds panic yielding no
value, and with an in-range offset over a whole number of records the panic
branch is unreachable: the run reaches exhaustion with every step yielding
its window. -/
theorem next_bounds_error_and_safe_iteration :
    (∀ (tsize : Nat) (it : VertexAttributeIter),
      it.attribute_data_end = it.attribute_data_offset + tsize →
      it.buffer ≠ [] →
      (it.buffer.length < it.attribute_data_offset + tsize ∨
        it.buffer.length < it.vertex_size) →
      it.next tsize = .panic) ∧
    (∀ (tsize : Nat) (buffer : List Nat) (vertex_size vertex_offset : Nat),
      vertex_offset + tsize ≤ vertex_size →
      vertex_size ∣ buffer.length →
      VertexAttributeIter.run tsize (buffer.length + 1)
        (VertexAttributeIter.new tsize buffer vertex_size vertex_offset) =
      RunResult.ok ((VertexAttributeIter.new tsize buffer vertex_size
        vertex_offset).windows tsize)) := by
  constructor
  · intro tsize it hts hbuf hshort
    exact VertexAttributeIter.next_panic_of_bounds tsize it hts hbuf hshort
  · intro tsize buffer vertex_size vertex_offset hoff hdvd
    rcases Nat.eq_zero_or_pos vertex_size with hvs | hvs
    · subst hvs
      have hb : buffer = [] :=
        List.length_eq_zero.mp (zero_dvd_iff.mp hdvd)
      subst hb
      simp [VertexAttributeIter.run, VertexAttributeIter.next,
        VertexAttributeIter.new, VertexAttributeIter.windows]
    · have hs := VertexAttributeIter.run_spec tsize (buffer.length + 1)
        (VertexAttributeIter.new tsize buffer vertex_size vertex_offset)
        hvs rfl hoff (Nat.lt_succ_self _)
      have hdvd2 : (VertexAttributeIter.new tsize buffer vertex_size
          vertex_offset).vertex_size ∣ (VertexAttributeIter.new tsize buffer
          vertex_size vertex_offset).buffer.length := hdvd
      rw [if_pos hdvd2] at hs
      exact hs

/-- C8 witness: a 4-byte buffer is too short for an 8-byte element and the
step panics, while three whole 12-byte records iterate to exhaustion. -/
theorem next_bounds_error_and_safe_iteration_witness :
    (VertexAttributeIter.new 8 [0, 0, 0, 0] 12 0).next 8 =
      NextResult.panic ∧
    VertexAttributeIter.run 12 ((List.range 36).length + 1)
      (VertexAttributeIter.new 12 (List.range 36) 12 0) =
    RunResult.ok ((VertexAttributeIter.new 12 (List.range 36) 12 0).windows
      12) :=
  ⟨next_bounds_error_and_safe_iteration.1 8
      (VertexAttributeIter.new 8 [0, 0, 0, 0] 12 0) rfl (by decide)
      (by decide),
    next_bounds_error_and_safe_iteration.2 12 (List.range 36) 12 0
      (by decide) (by decide)⟩

/-- C9: the outcome of iteration depends only on the bytes inside the
per-vertex element windows: two buffers of equal length that agree on every
window produce identical runs, items and termination alike. -/
theorem iteration_depends_only_on_windows (tsize fuel : Nat)
    (b1 b2 : List Nat) (vertex_size vertex_offset : Nat)
    (hlen : b1.length = b2.length)
    (hw : ∀ i : Nat,
      (b1.drop (i * vertex_size + vertex_offset)).take tsize =
      (b2.drop (i * vertex_size + vertex_offset)).take tsize) :
    VertexAttributeIter.run tsize fuel
      (VertexAttributeIter.new tsize b1 vertex_size vertex_offset) =
    VertexAttributeIter.run tsize fuel
      (VertexAttributeIter.new tsize b2 vertex_size vertex_offset) := by
  refine VertexAttributeIter.run_congr tsize fuel
    (VertexAttributeIter.new tsize b1 vertex_size vertex_offset)
    (VertexAttributeIter.new tsize b2 vertex_size vertex_offset)
    rfl rfl rfl hlen ?_
  intro i
  show (b1.drop (i * vertex_size + vertex_offset)).take
      (vertex_offset + tsize - vertex_offset) =
    (b2.drop (i * vertex_size + vertex_offset)).take
      (vertex_offset + tsize - vertex_offset)
  rw [Nat.add_sub_cancel_left]
  exact hw i

/-- C9 witness: the trailing-scalar scenario, a 4-byte element at offset 8 in
12-byte records; a buffer of zeros and a buffer whose bytes outside the
windows are 7 produce identical runs since bytes 8 to 11, 20 to 23 and 32 to
35 agree. -/
theorem iteration_depends_only_on_windows_witness :
    VertexAttributeIter.run 4 37
      (VertexAttributeIter.new 4 (List.replicate 36 0) 12 8) =
    VertexAttributeIter.run 4 37
      (VertexAttributeIter.new 4
        ((List.range 36).map fun j => if j % 12 < 8 then 7 else 0) 12 8) := by
  apply iteration_depends_only_on_windows 4 37 _ _ 12 8 (by decide)
  intro i
  match i with
  | 0 => decide
  | 1 => decide
  | 2 => decide
  | n + 3 =>
    have h1 : (List.replicate 36 (0 : Nat)).drop ((n + 3) * 12 + 8) = [] :=
      List.drop_eq_nil_of_le (by simp only [List.length_replicate]; omega)
    have h2 : ((List.range 36).map fun j =>
        if j % 12 < 8 then 7 else 0).drop ((n + 3) * 12 + 8) = [] :=
      List.drop_eq_nil_of_le
        (by simp only [List.length_map, List.length_range]; omega)
    rw [h1, h2]

/-- C10: construction performs no validation and always succeeds, recording
exactly the given buffer, offset and stride with the window end derived as
offset plus element size; inconsistent parameters surface only in later
calls, a too-short buffer at the first step and a zero stride in
size_hint. -/
theorem new_performs_no_validation (tsize : Nat) (buffer : List Nat)
    (vertex_size vertex_offset : Nat) :
    VertexAttributeIter.new tsize buffer vertex_size vertex_offset =
      { buffer := buffer, attribute_data_offset := vertex_offset,
        attribute_data_end := vertex_offset + tsize,
        vertex_size := vertex_size } ∧
    (buffer ≠ [] → buffer.length < vertex_offset + tsize →
      (VertexAttributeIter.new tsize buffer vertex_size vertex_offset).next
        tsize = .panic) ∧
    (vertex_size = 0 →
      (VertexAttributeIter.new tsize buffer vertex_size
        vertex_offset).size_hint = none) := by
  refine ⟨rfl, ?_, ?_⟩
  · intro hbuf hshort
    exact VertexAttributeIter.next_panic_of_bounds tsize _ rfl hbuf
      (Or.inl hshort)
  · intro hvs
    simp [VertexAttributeIter.size_hint, VertexAttributeIter.new, hvs]

/-- C10 witness: constructing over a 2-byte buffer with stride 0 and offset 3
succeeds, then the first step panics and size_hint fails. -/
theorem new_performs_no_validation_witness :
    (VertexAttributeIter.new 4 [1, 2] 0 3).next 4 = NextResult.panic ∧
    (VertexAttributeIter.new 4 [1, 2] 0 3).size_hint = none :=
  ⟨(new_performs_no_validation 4 [1, 2] 0 3).2.1 (by decide) (by decide),
    (new_performs_no_validation 4 [1, 2] 0 3).2.2 rfl⟩
